import Mathlib

/-!
Verification of the technical condition-monitoring dashboard
(`technical_como.py`): a shallow embedding of its filter cascade,
series reshaper, alarm-band resolver and condition classifier,
with theorems settling the specification's claims about them.

Readings are embedded as a structure with optional string fields
(pandas `NaN` becomes `none`), timestamps as a six-field record,
and dataframes as lists of readings.
-/

namespace TechnicalComo

/-- Python `str(x)` on an optional string: `None` prints as `"None"`. -/
def pyStr : Option String → String
  | none => "None"
  | some s => s

/-- Python `s.lower()` on the character list of a string (ASCII lowering). -/
def lowerStr (s : String) : List Char :=
  s.data.map Char.toLower

/-- `startsWith hay needle`: `needle` is a prefix of `hay`. -/
def startsWith : List Char → List Char → Bool
  | _, [] => true
  | [], _ :: _ => false
  | a :: as, b :: bs => a == b && startsWith as bs

/-- Python `needle in hay` substring containment on character lists. -/
def hasSubstr : List Char → List Char → Bool
  | hay, needle =>
    startsWith hay needle ||
      (match hay with
       | [] => false
       | _ :: t => hasSubstr t needle)

/-- Canonical label of the excellent tier, as tested by `color_status`. -/
def excellentLabel : List Char := [ 'e', 'x', 'c', 'e', 'l', 'l', 'e', 'n', 't' ]

/-- Canonical label of the acceptable tier, as tested by `color_status`. -/
def acceptableLabel : List Char := [ 'a', 'c', 'c', 'e', 'p', 't', 'a', 'b', 'l', 'e' ]

/-- Canonical label of the requires-evaluation tier, as tested by `color_status`. -/
def requiresLabel : List Char :=
  [ 'r', 'e', 'q', 'u', 'i', 'r', 'e', 's', ' ', 'e', 'v', 'a', 'l', 'u', 'a', 't', 'i', 'o', 'n' ]

/-- Canonical label of the unacceptable tier, as tested by `color_status`. -/
def unacceptableLabel : List Char :=
  [ 'u', 'n', 'a', 'c', 'c', 'e', 'p', 't', 'a', 'b', 'l', 'e' ]

/-- CSS style returned by `color_status` for the excellent tier. -/
def excellentStyle : String := "background-color: rgba(0, 128, 0, 0.7); color: white;"

/-- CSS style returned by `color_status` for the acceptable tier. -/
def acceptableStyle : String := "background-color: rgba(50, 205, 50, 0.7); color: black;"

/-- CSS style returned by `color_status` for the requires-evaluation tier. -/
def requiresStyle : String := "background-color: rgba(255, 165, 0, 0.7); color: black;"

/-- CSS style returned by `color_status` for the unacceptable tier. -/
def unacceptableStyle : String := "background-color: rgba(255, 0, 0, 0.7); color: white;"

/-- Embedding of `color_status` (technical_como.py lines 161-167): lowers
`str(val)` and tests substring containment of the four labels in order,
returning the matching CSS style, or the empty style on no match. -/
def color_status (val : Option String) : String :=
  let val_lower := lowerStr (pyStr val)
  if hasSubstr val_lower excellentLabel then excellentStyle
  else if hasSubstr val_lower acceptableLabel then acceptableStyle
  else if hasSubstr val_lower requiresLabel then requiresStyle
  else if hasSubstr val_lower unacceptableLabel then unacceptableStyle
  else ""

/-- The four display tiers of the Condition Classifier, plus the neutral
(no-styling) tier for unmatched or null statuses. -/
inductive Tier where
  | excellent
  | acceptable
  | requiresEvaluation
  | unacceptable
  | neutral
deriving DecidableEq

/-- The rendering-layer style of each tier, read off the code's branches. -/
def tierStyle : Tier → String
  | Tier.excellent => excellentStyle
  | Tier.acceptable => acceptableStyle
  | Tier.requiresEvaluation => requiresStyle
  | Tier.unacceptable => unacceptableStyle
  | Tier.neutral => ""

/-- Modelled from the spec (section 4.4): the Condition Classifier maps a
status string to a display tier by case-insensitive substring containment
of each tier's canonical label, in the fixed order excellent, acceptable,
requires-evaluation, unacceptable, first match winning; null or unmatched
input maps to the neutral tier. -/
def specClassify (val : Option String) : Tier :=
  match val with
  | none => Tier.neutral
  | some s =>
    let l := lowerStr s
    if hasSubstr l excellentLabel then Tier.excellent
    else if hasSubstr l acceptableLabel then Tier.acceptable
    else if hasSubstr l requiresLabel then Tier.requiresEvaluation
    else if hasSubstr l unacceptableLabel then Tier.unacceptable
    else Tier.neutral

/-- A timestamp as produced by `pd.to_datetime`, to second precision. -/
structure Timestamp where
  year : Nat
  month : Nat
  day : Nat
  hour : Nat
  minute : Nat
  second : Nat
deriving DecidableEq

/-- Chronological sort key of a timestamp (fields are within calendar
bounds for every timestamp `pd.to_datetime` accepts). -/
def dateKey (t : Timestamp) : Nat :=
  ((((t.year * 13 + t.month) * 32 + t.day) * 24 + t.hour) * 60 + t.minute) * 60 + t.second

/-- One row of the dashboard's working dataframe: the `data` table
left-joined with `alarm_standards` (load_data's query), value non-null and
date parsed.  Optional fields model SQL/pandas nulls. -/
structure Reading where
  equipment_tag_id : Option String
  equipment_name : Option String
  component : Option String
  point_measurement : Option String
  date : Timestamp
  value : ℚ
  unit : Option String
  status : Option String
  note : Option String
  alarm_standard : Option String
  excellent : Option String
  acceptable : Option String
  requires_evaluation : Option String
  unacceptable : Option String
deriving DecidableEq

/-- Embedding of `df[df["equipment_name"] == equipment_choice]`
(technical_como.py line 80). -/
def filtered_by_eq (df : List Reading) (e : String) : List Reading :=
  df.filter fun r => decide (r.equipment_name = some e)

/-- Embedding of `filtered_by_eq[filtered_by_eq["component"] == component_choice]`
(line 83). -/
def component_df (df : List Reading) (e c : String) : List Reading :=
  (filtered_by_eq df e).filter fun r => decide (r.component = some c)

/-- Embedding of `component_df[component_df["point_measurement"].isin(point_choices)].copy()`
(line 89); pandas `isin` is false on a null entry. -/
def filtered_df (df : List Reading) (e c : String) (pts : List String) : List Reading :=
  (component_df df e c).filter fun r =>
    match r.point_measurement with
    | some p => pts.contains p
    | none => false

/-- Pandas `Series.unique`: distinct values in order of first occurrence;
`seen` accumulates values already emitted. -/
def dedupAux {α : Type} [DecidableEq α] (seen : List α) : List α → List α
  | [] => []
  | x :: xs => if x ∈ seen then dedupAux seen xs else x :: dedupAux (x :: seen) xs

/-- Distinct values of a list in order of first occurrence (pandas `unique`,
`DataFrame.drop_duplicates`). -/
def dedupFirst {α : Type} [DecidableEq α] (l : List α) : List α :=
  dedupAux [] l

/-- Stable insertion of `a` into `l`: `a` goes before the first element not
strictly below it. -/
def insertS {α : Type} (ltB : α → α → Bool) (a : α) : List α → List α
  | [] => [a]
  | y :: ys => if ltB y a then y :: insertS ltB a ys else a :: y :: ys

/-- Stable ascending sort by the strict comparator `ltB` (the embedding of
Python `sorted` and of a stable dataframe sort). -/
def sortS {α : Type} (ltB : α → α → Bool) : List α → List α
  | [] => []
  | x :: xs => insertS ltB x (sortS ltB xs)

/-- Strict comparator for Python `sorted` on strings. -/
def strLtB (a b : String) : Bool := decide (a < b)

/-- Strict comparator for `sort_values(by="date")` (ascending). -/
def dateLtB (a b : Reading) : Bool := decide (dateKey a.date < dateKey b.date)

/-- Strict comparator for `sort_values(by="date", ascending=False)`. -/
def dateGtB (a b : Reading) : Bool := decide (dateKey b.date < dateKey a.date)

/-- Embedding of `sorted(df["equipment_name"].dropna().unique())` (line 79). -/
def equipment_options (df : List Reading) : List String :=
  sortS strLtB (dedupFirst (df.filterMap fun r => r.equipment_name))

/-- Embedding of `sorted(filtered_by_eq["component"].dropna().unique())`
(line 82): the Stage-2 candidate components for the chosen equipment. -/
def component_options (df : List Reading) (e : String) : List String :=
  sortS strLtB (dedupFirst ((filtered_by_eq df e).filterMap fun r => r.component))

/-- Embedding of `sorted(component_df["point_measurement"].dropna().unique())`
(line 85): the Stage-3 candidate points. -/
def point_options (df : List Reading) (e c : String) : List String :=
  sortS strLtB (dedupFirst ((component_df df e c).filterMap fun r => r.point_measurement))

/-- One chart trace produced by `px.line(..., color="point_measurement")`:
its legend label and its (timestamp, value) points in dataframe order. -/
structure Series where
  label : String
  points : List (Timestamp × ℚ)
deriving DecidableEq

/-- Embedding of the trend graph (lines 101-108): the dataframe is sorted
ascending by date (`plot_df`), and `px.line` emits one trace per distinct
value of the `point_measurement` column, in order of first appearance,
labelled with that value, each trace carrying its rows' (date, value) pairs
in dataframe order. -/
def chartSeries (rows : List Reading) : List Series :=
  let plot_df := sortS dateLtB rows
  (dedupFirst (plot_df.filterMap fun r => r.point_measurement)).map fun p =>
    { label := p
      points := (plot_df.filter fun r => decide (r.point_measurement = some p)).map
        fun r => (r.date, r.value) }

/-- One row of the Alarm Standards table: the projection of a reading to
`alarm_cols` (line 141). -/
structure AlarmRow where
  point_measurement : Option String
  equipment_tag_id : Option String
  alarm_standard : Option String
  excellent : Option String
  acceptable : Option String
  requires_evaluation : Option String
  unacceptable : Option String
  unit : Option String
deriving DecidableEq

/-- Projection of a reading to the Alarm Standards columns (line 141). -/
def alarmCols (r : Reading) : AlarmRow :=
  { point_measurement := r.point_measurement
    equipment_tag_id := r.equipment_tag_id
    alarm_standard := r.alarm_standard
    excellent := r.excellent
    acceptable := r.acceptable
    requires_evaluation := r.requires_evaluation
    unacceptable := r.unacceptable
    unit := r.unit }

/-- Embedding of `filtered_df[alarm_cols].drop_duplicates()` (line 142):
full-row deduplication keeping first occurrences in order. -/
def alarm_df (rows : List Reading) : List AlarmRow :=
  dedupFirst (rows.map alarmCols)

/-- The tuple the spec claims is the Alarm Band Resolver's deduplication
key: point-measurement, alarm-standard, the four band descriptors and unit -
without the equipment tag. -/
structure SpecBandTuple where
  point_measurement : Option String
  alarm_standard : Option String
  excellent : Option String
  acceptable : Option String
  requires_evaluation : Option String
  unacceptable : Option String
  unit : Option String
deriving DecidableEq

/-- The projection of an Alarm Standards row to the spec's claimed
deduplication key. -/
def specTuple (a : AlarmRow) : SpecBandTuple :=
  { point_measurement := a.point_measurement
    alarm_standard := a.alarm_standard
    excellent := a.excellent
    acceptable := a.acceptable
    requires_evaluation := a.requires_evaluation
    unacceptable := a.unacceptable
    unit := a.unit }

/-- The character for a decimal digit. -/
def digitChar (n : Nat) : Char := Char.ofNat (48 + n)

/-- The value of a decimal digit character, if it is one. -/
def digitVal (c : Char) : Option Nat :=
  if c.isDigit then some (c.toNat - 48) else none

/-- Embedding of `strftime("%Y-%m-%d")` (line 176): the zero-padded
`YYYY-MM-DD` rendering of a timestamp, as a character list. -/
def fmtYmd (t : Timestamp) : List Char :=
  [ digitChar (t.year / 1000 % 10), digitChar (t.year / 100 % 10),
    digitChar (t.year / 10 % 10), digitChar (t.year % 10), '-',
    digitChar (t.month / 10 % 10), digitChar (t.month % 10), '-',
    digitChar (t.day / 10 % 10), digitChar (t.day % 10) ]

/-- Modelled from the spec: re-parsing a historical-table timestamp string.
The table's format is `YYYY-MM-DD` (the code emits no time component), so
the parser reads a fixed-width date and yields midnight of that day, as
`pd.to_datetime` does on a date-only string. -/
def parseYmd : List Char → Option Timestamp
  | [ y3, y2, y1, y0, s1, m1, m0, s2, d1, d0 ] =>
    if s1 = '-' ∧ s2 = '-' then
      match digitVal y3, digitVal y2, digitVal y1, digitVal y0,
          digitVal m1, digitVal m0, digitVal d1, digitVal d0 with
      | some a, some b, some c, some d, some e, some f, some g, some h =>
        some ⟨a * 1000 + b * 100 + c * 10 + d, e * 10 + f, g * 10 + h, 0, 0, 0⟩
      | _, _, _, _, _, _, _, _ => none
    else none
  | _ => none

/-- One row of a Detailed Historical Data table (lines 174-182): the
`hist_cols` projection with the formatted date, plus the style tag that
`applymap(color_status, subset=["status"])` attaches to the status cell. -/
structure HistRow where
  date : List Char
  value : ℚ
  unit : Option String
  status : Option String
  note : Option String
  statusStyle : String
deriving DecidableEq

/-- Embedding of one point's historical table (lines 173-182): rows of the
filtered subset for that point, sorted descending by date, projected to
`hist_cols`, date formatted as `YYYY-MM-DD`, status cell styled by
`color_status`. -/
def historical_table (rows : List Reading) (p : String) : List HistRow :=
  let point_df := rows.filter fun r => decide (r.point_measurement = some p)
  let sorted := sortS dateGtB point_df
  sorted.map fun r =>
    { date := fmtYmd r.date
      value := r.value
      unit := r.unit
      status := r.status
      note := r.note
      statusStyle := color_status r.status }

/-- Embedding of the per-point loop `for point in sorted(point_choices)`
(line 171): one titled historical table per selected point. -/
def historicalTables (rows : List Reading) (pts : List String) :
    List (String × List HistRow) :=
  (sortS strLtB pts).map fun p => (p, historical_table rows p)

/-- The informational message of line 195. -/
def selectPointsMsg : String :=
  "Please select one or more measurement points from the filters above to see the data."

/-- The dashboard's display outcome: either the informational no-selection
message (line 195) or the rendered chart, alarm table and historical
tables (lines 88-193). -/
inductive RenderOutcome where
  | info (msg : String)
  | content (chart : List Series) (alarm : List AlarmRow)
      (hist : List (String × List HistRow))
deriving DecidableEq

/-- Embedding of the display area (lines 88-195): with a non-empty point
selection the filtered subset is charted and tabulated; with an empty
selection only the informational message is shown. -/
def renderDashboard (df : List Reading) (e c : String) (pts : List String) :
    RenderOutcome :=
  if pts.isEmpty then RenderOutcome.info selectPointsMsg
  else
    let fdf := filtered_df df e c pts
    RenderOutcome.content (chartSeries fdf) (alarm_df fdf) (historicalTables fdf pts)

/-- First reading of the spec's two-row scenario: Pump-1 / Bearing /
Vibration-X, 2024-01-01, value 2.1 mm/s, status Excellent. -/
def scenR1 : Reading :=
  { equipment_tag_id := some "PMP-001"
    equipment_name := some "Pump-1"
    component := some "Bearing"
    point_measurement := some "Vibration-X"
    date := ⟨2024, 1, 1, 0, 0, 0⟩
    value := mkRat 21 10
    unit := some "mm/s"
    status := some "Excellent"
    note := none
    alarm_standard := some "ISO-10816"
    excellent := some "0 - 2.8"
    acceptable := some "2.8 - 4.5"
    requires_evaluation := some "4.5 - 7.1"
    unacceptable := some "over 7.1" }

/-- Second reading of the spec's scenario: same point, 2024-01-02, value 5.9,
status Unacceptable. -/
def scenR2 : Reading :=
  { scenR1 with
    date := ⟨2024, 1, 2, 0, 0, 0⟩
    value := mkRat 59 10
    status := some "Unacceptable" }

/-- The spec's two-row scenario dataset. -/
def scenD : List Reading := [scenR1, scenR2]

/-- The scenario's final filtered subset: equipment Pump-1, component
Bearing, points {Vibration-X}. -/
def scenFiltered : List Reading :=
  filtered_df scenD "Pump-1" "Bearing" [ "Vibration-X" ]

/-- The single chart trace of the scenario. -/
def scenSeries : Series :=
  { label := "Vibration-X"
    points := [(⟨2024, 1, 1, 0, 0, 0⟩, mkRat 21 10), (⟨2024, 1, 2, 0, 0, 0⟩, mkRat 59 10)] }

/-- A reading whose alarm-band columns match `tagR2`'s except for the
equipment tag identifier. -/
def tagR1 : Reading :=
  { equipment_tag_id := some "TAG-A"
    equipment_name := some "Pump-2"
    component := some "Gearbox"
    point_measurement := some "Vibration-Y"
    date := ⟨2024, 2, 1, 0, 0, 0⟩
    value := mkRat 1 1
    unit := some "mm/s"
    status := some "Acceptable"
    note := none
    alarm_standard := some "ISO-10816"
    excellent := some "0 - 2.8"
    acceptable := some "2.8 - 4.5"
    requires_evaluation := some "4.5 - 7.1"
    unacceptable := some "over 7.1" }

/-- Same point, standard, band descriptors and unit as `tagR1`, but tag
TAG-B. -/
def tagR2 : Reading :=
  { tagR1 with
    equipment_tag_id := some "TAG-B"
    date := ⟨2024, 2, 2, 0, 0, 0⟩
    value := mkRat 2 1 }

/-- Dataset with two readings differing only in tag, date and value. -/
def tagD : List Reading := [tagR1, tagR2]

/-- Final filtered subset of `tagD` under the natural selection. -/
def tagFiltered : List Reading :=
  filtered_df tagD "Pump-2" "Gearbox" [ "Vibration-Y" ]

/-- A reading whose timestamp has a non-midnight time of day. -/
def noonR : Reading :=
  { equipment_tag_id := some "CMP-007"
    equipment_name := some "Compressor-1"
    component := some "Shaft"
    point_measurement := some "Temp-1"
    date := ⟨2024, 3, 5, 6, 30, 15⟩
    value := mkRat 77 1
    unit := some "degC"
    status := some "Acceptable"
    note := none
    alarm_standard := none
    excellent := none
    acceptable := none
    requires_evaluation := none
    unacceptable := none }

/-- Dataset containing only `noonR`. -/
def noonD : List Reading := [noonR]

/-- Final filtered subset of `noonD` under the natural selection. -/
def noonFiltered : List Reading :=
  filtered_df noonD "Compressor-1" "Shaft" [ "Temp-1" ]

/-- C1: `color_status` realises the spec's Condition Classifier: every status
value (null included) is assigned the style of the tier obtained by
case-insensitive substring containment of the canonical labels, tested in the
fixed order excellent, acceptable, requires-evaluation, unacceptable, first
match winning, with unmatched input getting the neutral (empty) style; and a
status containing both "acceptable" and "unacceptable" as substrings (and not
"excellent") is classified as the earlier tier in that order, namely
acceptable. -/
theorem color_status_first_match_order :
    (∀ val : Option String, color_status val = tierStyle (specClassify val)) ∧
    (∀ s : String, hasSubstr (lowerStr s) acceptableLabel = true →
      hasSubstr (lowerStr s) unacceptableLabel = true →
      hasSubstr (lowerStr s) excellentLabel = false →
      specClassify (some s) = Tier.acceptable) := by
  constructor
  · intro val
    match val with
    | none => decide
    | some s =>
      simp only [color_status, specClassify, pyStr]
      split
      · rfl
      · split
        · rfl
        · split
          · rfl
          · split
            · rfl
            · rfl
  · intro s h1 _ h3
    simp only [specClassify, h1, h3]
    rfl

/-- Witness for C1: the concrete status "Totally unacceptable" contains both
"acceptable" and "unacceptable" (and not "excellent") and is classified into
the acceptable tier. -/
theorem color_status_first_match_order_witness :
    hasSubstr (lowerStr "Totally unacceptable") acceptableLabel = true ∧
    hasSubstr (lowerStr "Totally unacceptable") unacceptableLabel = true ∧
    hasSubstr (lowerStr "Totally unacceptable") excellentLabel = false ∧
    specClassify (some "Totally unacceptable") = Tier.acceptable :=
  ⟨by decide, by decide, by decide,
    color_status_first_match_order.2 "Totally unacceptable" (by decide) (by decide) (by decide)⟩

theorem mem_insertS {α : Type} (ltB : α → α → Bool) (a x : α) (l : List α) :
    x ∈ insertS ltB a l ↔ x = a ∨ x ∈ l := by
  induction l with
  | nil => simp [insertS]
  | cons y ys ih =>
    simp only [insertS]
    split
    · simp only [List.mem_cons, ih]
      tauto
    · simp only [List.mem_cons]

theorem perm_insertS {α : Type} (ltB : α → α → Bool) (a : α) (l : List α) :
    List.Perm (insertS ltB a l) (a :: l) := by
  induction l with
  | nil => exact List.Perm.refl _
  | cons y ys ih =>
    simp only [insertS]
    split
    · exact (ih.cons y).trans (List.Perm.swap a y ys)
    · exact List.Perm.refl _

theorem perm_sortS {α : Type} (ltB : α → α → Bool) (l : List α) :
    List.Perm (sortS ltB l) l := by
  induction l with
  | nil => exact List.Perm.refl _
  | cons x xs ih => exact (perm_insertS ltB x (sortS ltB xs)).trans (ih.cons x)

theorem pairwise_insertS {α : Type} (ltB : α → α → Bool)
    (hasym : ∀ x y, ltB x y = true → ltB y x = false)
    (hneg : ∀ x y z, ltB y x = false → ltB z y = false → ltB z x = false)
    (a : α) (l : List α) (hl : l.Pairwise fun x y => ltB y x = false) :
    (insertS ltB a l).Pairwise fun x y => ltB y x = false := by
  induction l with
  | nil => simp [insertS]
  | cons y ys ih =>
    rcases List.pairwise_cons.mp hl with ⟨hy, hys⟩
    simp only [insertS]
    split
    · rename_i h
      refine List.pairwise_cons.mpr ⟨?_, ih hys⟩
      intro b hb
      rcases (mem_insertS ltB a b ys).mp hb with rfl | hbys
      · exact hasym y b h
      · exact hy b hbys
    · rename_i h
      have h' : ltB y a = false := by
        cases hya : ltB y a
        · rfl
        · exact absurd hya h
      refine List.pairwise_cons.mpr ⟨?_, hl⟩
      intro b hb
      rcases List.mem_cons.mp hb with rfl | hbys
      · exact h'
      · exact hneg a y b h' (hy b hbys)

theorem pairwise_sortS {α : Type} (ltB : α → α → Bool)
    (hasym : ∀ x y, ltB x y = true → ltB y x = false)
    (hneg : ∀ x y z, ltB y x = false → ltB z y = false → ltB z x = false)
    (l : List α) :
    (sortS ltB l).Pairwise fun x y => ltB y x = false := by
  induction l with
  | nil => simp [sortS]
  | cons x xs ih => exact pairwise_insertS ltB hasym hneg x (sortS ltB xs) ih

theorem strLtB_asym : ∀ x y : String, strLtB x y = true → strLtB y x = false := by
  intro x y h
  simp only [strLtB, decide_eq_true_eq] at h
  simpa [strLtB] using not_lt_of_lt h

theorem strLtB_negtrans :
    ∀ x y z : String, strLtB y x = false → strLtB z y = false → strLtB z x = false := by
  intro x y z h1 h2
  simp only [strLtB, decide_eq_false_iff_not, not_lt] at h1 h2 ⊢
  exact le_trans h1 h2

theorem dateLtB_asym : ∀ x y : Reading, dateLtB x y = true → dateLtB y x = false := by
  intro x y h
  simp only [dateLtB, decide_eq_true_eq] at h
  simp only [dateLtB, decide_eq_false_iff_not, not_lt]
  exact Nat.le_of_lt h

theorem dateLtB_negtrans :
    ∀ x y z : Reading, dateLtB y x = false → dateLtB z y = false → dateLtB z x = false := by
  intro x y z h1 h2
  simp only [dateLtB, decide_eq_false_iff_not, not_lt] at h1 h2 ⊢
  exact le_trans h1 h2

theorem dateGtB_asym : ∀ x y : Reading, dateGtB x y = true → dateGtB y x = false := by
  intro x y h
  simp only [dateGtB, decide_eq_true_eq] at h
  simp only [dateGtB, decide_eq_false_iff_not, not_lt]
  exact Nat.le_of_lt h

theorem dateGtB_negtrans :
    ∀ x y z : Reading, dateGtB y x = false → dateGtB z y = false → dateGtB z x = false := by
  intro x y z h1 h2
  simp only [dateGtB, decide_eq_false_iff_not, not_lt] at h1 h2 ⊢
  exact le_trans h2 h1

theorem mem_dedupAux {α : Type} [DecidableEq α] (seen l : List α) (x : α) :
    x ∈ dedupAux seen l ↔ x ∈ l ∧ x ∉ seen := by
  induction l generalizing seen with
  | nil => simp [dedupAux]
  | cons y ys ih =>
    simp only [dedupAux]
    split
    · rename_i hy
      rw [ih]
      simp only [List.mem_cons]
      constructor
      · rintro ⟨hx, hs⟩
        exact ⟨Or.inr hx, hs⟩
      · rintro ⟨hor, hs⟩
        rcases hor with rfl | hx
        · exact absurd hy hs
        · exact ⟨hx, hs⟩
    · rename_i hy
      by_cases hxy : x = y
      · subst hxy
        simp [hy]
      · simp only [List.mem_cons, hxy, false_or]
        rw [ih]
        simp only [List.mem_cons, hxy, false_or]

theorem nodup_dedupAux {α : Type} [DecidableEq α] (seen l : List α) :
    (dedupAux seen l).Nodup := by
  induction l generalizing seen with
  | nil => simp [dedupAux]
  | cons y ys ih =>
    simp only [dedupAux]
    split
    · exact ih seen
    · refine List.nodup_cons.mpr ⟨?_, ih (y :: seen)⟩
      intro hy
      exact ((mem_dedupAux (y :: seen) ys y).mp hy).2 (List.mem_cons_self y seen)

theorem sublist_dedupAux {α : Type} [DecidableEq α] (seen l : List α) :
    List.Sublist (dedupAux seen l) l := by
  induction l generalizing seen with
  | nil => simp [dedupAux]
  | cons y ys ih =>
    simp only [dedupAux]
    split
    · exact (ih seen).cons y
    · exact (ih (y :: seen)).cons₂ y

theorem mem_dedupFirst {α : Type} [DecidableEq α] (l : List α) (x : α) :
    x ∈ dedupFirst l ↔ x ∈ l := by
  rw [dedupFirst, mem_dedupAux]
  simp

theorem nodup_dedupFirst {α : Type} [DecidableEq α] (l : List α) :
    (dedupFirst l).Nodup :=
  nodup_dedupAux [] l

theorem sublist_dedupFirst {α : Type} [DecidableEq α] (l : List α) :
    List.Sublist (dedupFirst l) l :=
  sublist_dedupAux [] l

theorem mem_filtered_df {df : List Reading} {e c : String} {pts : List String}
    {r : Reading} :
    r ∈ filtered_df df e c pts ↔
      r ∈ df ∧ r.equipment_name = some e ∧ r.component = some c ∧
        (match r.point_measurement with
         | some p => pts.contains p
         | none => false) = true := by
  simp only [filtered_df, component_df, filtered_by_eq, List.mem_filter,
    decide_eq_true_eq, and_assoc]

theorem filtered_df_fixed (e c : String) (pts : List String) (S : List Reading)
    (hS : ∀ a ∈ S, a.equipment_name = some e ∧ a.component = some c ∧
      (match a.point_measurement with
       | some p => pts.contains p
       | none => false) = true) :
    filtered_df S e c pts = S := by
  unfold filtered_df component_df filtered_by_eq
  have h1 : S.filter (fun r => decide (r.equipment_name = some e)) = S :=
    List.filter_eq_self.mpr fun a ha => by simp [(hS a ha).1]
  rw [h1]
  have h2 : S.filter (fun r => decide (r.component = some c)) = S :=
    List.filter_eq_self.mpr fun a ha => by simp [(hS a ha).2.1]
  rw [h2]
  exact List.filter_eq_self.mpr fun a ha => (hS a ha).2.2

/-- C9: the Filter Cascade is a pure function of the dataset and the
three-level selection, and running it again over its own output with the
same selection reproduces that output bit for bit; the original dataset is
never mutated (derived views are new lists). -/
theorem filter_cascade_idempotent (df : List Reading) (e c : String)
    (pts : List String) :
    filtered_df (filtered_df df e c pts) e c pts = filtered_df df e c pts :=
  filtered_df_fixed e c pts (filtered_df df e c pts) fun _ ha =>
    (mem_filtered_df.mp ha).2

/-- C5: with an empty point selection the final filtered subset is empty for
every dataset and every equipment/component choice, and the dashboard
surfaces the distinguished informational "nothing to show" outcome instead
of producing a chart or tables. -/
theorem empty_point_selection_nothing_to_show (df : List Reading) (e c : String) :
    filtered_df df e c [] = [] ∧
    renderDashboard df e c [] = RenderOutcome.info selectPointsMsg := by
  refine ⟨?_, rfl⟩
  apply List.filter_eq_nil_iff.mpr
  intro a _
  cases h : a.point_measurement <;> simp [List.contains]

/-- C6: for any equipment present in the dataset, the Stage-2 component
candidate list is exactly the set of distinct non-null component names among
the rows with that equipment, without repetition and sorted
lexicographically. -/
theorem component_options_exact (df : List Reading) (e : String)
    (_he : ∃ r ∈ df, r.equipment_name = some e) :
    (component_options df e).Nodup ∧
    List.Pairwise (fun a b : String => a ≤ b) (component_options df e) ∧
    ∀ s : String, s ∈ component_options df e ↔
      ∃ r ∈ df, r.equipment_name = some e ∧ r.component = some s := by
  refine ⟨?_, ?_, ?_⟩
  · exact ((perm_sortS strLtB _).nodup_iff).mpr (nodup_dedupFirst _)
  · exact (pairwise_sortS strLtB strLtB_asym strLtB_negtrans _).imp
      fun h => by simpa [strLtB, not_lt] using h
  · intro s
    rw [component_options, (perm_sortS strLtB _).mem_iff, mem_dedupFirst,
      List.mem_filterMap]
    simp only [filtered_by_eq, List.mem_filter, decide_eq_true_eq, and_assoc]

/-- Witness for C6: in the scenario dataset, equipment Pump-1 is present and
its component candidate list is duplicate-free. -/
theorem component_options_exact_witness :
    scenR1 ∈ scenD ∧ scenR1.equipment_name = some "Pump-1" ∧
    (component_options scenD "Pump-1").Nodup :=
  ⟨by decide, by decide,
    (component_options_exact scenD "Pump-1" ⟨scenR1, by decide, by decide⟩).1⟩

/-- C4 counterexample: in the spec's own scenario the chart's single series
is labelled with the bare point name "Vibration-X"; the claimed label
"Vibration-X (mm/s)" differs, so series are not labelled "point (unit)". -/
theorem chart_label_lacks_unit_cex :
    (chartSeries scenFiltered).map (fun s => s.label) = [ "Vibration-X" ] ∧
    decide (( "Vibration-X" : String) = "Vibration-X (mm/s)") = false :=
  ⟨by decide, by decide⟩

/-- C4 (amended): for every final filtered subset the chart groups rows by
point-measurement name, each series' point sequence is ascending by
timestamp and holds exactly the (timestamp, value) pairs of that point's
rows; each series is labelled with the bare point name, without the unit. -/
theorem chart_series_grouping (rows : List Reading) (s : Series)
    (hs : s ∈ chartSeries rows) :
    List.Pairwise (fun p q => dateKey p.1 ≤ dateKey q.1) s.points ∧
    List.Perm s.points
      ((rows.filter fun r => decide (r.point_measurement = some s.label)).map
        fun r => (r.date, r.value)) := by
  simp only [chartSeries, List.mem_map] at hs
  obtain ⟨p, hp, rfl⟩ := hs
  constructor
  · dsimp only
    refine List.Pairwise.map (fun r : Reading => (r.date, r.value))
      (fun a b h => h) ?_
    refine List.Pairwise.sublist (List.filter_sublist _) ?_
    exact (pairwise_sortS dateLtB dateLtB_asym dateLtB_negtrans rows).imp
      fun h => by simpa [dateLtB, not_lt] using h
  · dsimp only
    exact (((perm_sortS dateLtB rows).filter _).map _)

/-- Witness for C4: the scenario's series is in the chart output and its two
points are in ascending timestamp order. -/
theorem chart_series_grouping_witness :
    scenSeries ∈ chartSeries scenFiltered ∧
    List.Pairwise (fun p q => dateKey p.1 ≤ dateKey q.1) scenSeries.points :=
  ⟨by decide, (chart_series_grouping scenFiltered scenSeries (by decide)).1⟩

/-- C2: evaluating the code on the spec's scenario: the Vibration-X
historical table has exactly two rows in descending date order, but the
status "Unacceptable" row carries the acceptable tier's style, not the
unacceptable tier's: since "unacceptable" contains "acceptable" as a
substring and the acceptable check runs first, the code's unacceptable
branch is unreachable. -/
theorem scenario_unacceptable_row_styled_acceptable :
    (historical_table scenFiltered "Vibration-X").map
        (fun r => (r.date, r.status, r.statusStyle)) =
      [("2024-01-02".data, some "Unacceptable", acceptableStyle),
       ("2024-01-01".data, some "Excellent", excellentStyle)] ∧
    acceptableStyle = tierStyle Tier.acceptable ∧
    decide (tierStyle Tier.acceptable = tierStyle Tier.unacceptable) = false :=
  ⟨by decide, rfl, by decide⟩

theorem digitVal_digitChar (n : Nat) (hn : n < 10) :
    digitVal (digitChar n) = some n := by
  interval_cases n <;> decide

theorem digitVal_digitChar_mod (n : Nat) :
    digitVal (digitChar (n % 10)) = some (n % 10) :=
  digitVal_digitChar (n % 10) (Nat.mod_lt n (by omega))

theorem parseYmd_fmtYmd (t : Timestamp) (hy : t.year < 10000)
    (hm : t.month < 100) (hd : t.day < 100) :
    parseYmd (fmtYmd t) = some ⟨t.year, t.month, t.day, 0, 0, 0⟩ := by
  simp only [fmtYmd, parseYmd, digitVal_digitChar_mod, and_self, if_true,
    Option.some.injEq, Timestamp.mk.injEq]
  refine ⟨?_, ?_, ?_, trivial⟩ <;> omega

theorem parseYmd_fmtYmd_iff (t : Timestamp) (hy : t.year < 10000)
    (hm : t.month < 100) (hd : t.day < 100) :
    parseYmd (fmtYmd t) = some t ↔
      t.hour = 0 ∧ t.minute = 0 ∧ t.second = 0 := by
  obtain ⟨y, mo, d, hh, mi, se⟩ := t
  rw [parseYmd_fmtYmd _ hy hm hd]
  simp only [Option.some.injEq, Timestamp.mk.injEq, eq_self_iff_true, true_and]
  constructor
  · rintro ⟨h4, h5, h6⟩
    exact ⟨h4.symm, h5.symm, h6.symm⟩
  · rintro ⟨h4, h5, h6⟩
    exact ⟨h4.symm, h5.symm, h6.symm⟩

/-- C3 counterexample: the reading taken at 2024-03-05 06:30:15 lies in the
final filtered subset of its dataset, yet formatting its historical-table
timestamp (the code emits only "YYYY-MM-DD", line 176) and re-parsing yields
midnight of 2024-03-05 - not the original instant, so the round trip does
not recover second precision. -/
theorem hist_timestamp_roundtrip_cex :
    noonR ∈ noonFiltered ∧
    parseYmd (fmtYmd noonR.date) = some ⟨2024, 3, 5, 0, 0, 0⟩ ∧
    decide (parseYmd (fmtYmd noonR.date) = some noonR.date) = false :=
  ⟨by decide, by decide, by decide⟩

/-- C3 (amended): for every reading of the final filtered subset (calendar
fields in range), formatting its historical-table timestamp and re-parsing
recovers the original instant truncated to its calendar day; the original
instant is recovered - to second precision or any - exactly when its time of
day is midnight, because the code formats the date as YYYY-MM-DD with no
time component. -/
theorem hist_timestamp_roundtrip_day_precision (df : List Reading)
    (e c : String) (pts : List String) (r : Reading)
    (_hr : r ∈ filtered_df df e c pts) (hy : r.date.year < 10000)
    (hm : r.date.month < 100) (hd : r.date.day < 100) :
    parseYmd (fmtYmd r.date) =
      some ⟨r.date.year, r.date.month, r.date.day, 0, 0, 0⟩ ∧
    (parseYmd (fmtYmd r.date) = some r.date ↔
      r.date.hour = 0 ∧ r.date.minute = 0 ∧ r.date.second = 0) :=
  ⟨parseYmd_fmtYmd r.date hy hm hd, parseYmd_fmtYmd_iff r.date hy hm hd⟩

/-- Witness for C3: the scenario's first reading (a midnight timestamp) is
in its final filtered subset, satisfies the calendar bounds, and its
formatted date re-parses to the original instant. -/
theorem hist_timestamp_roundtrip_day_precision_witness :
    scenR1 ∈ filtered_df scenD "Pump-1" "Bearing" [ "Vibration-X" ] ∧
    scenR1.date.year < 10000 ∧ scenR1.date.month < 100 ∧
    scenR1.date.day < 100 ∧
    parseYmd (fmtYmd scenR1.date) = some scenR1.date :=
  ⟨by decide, by decide, by decide, by decide,
    ((hist_timestamp_roundtrip_day_precision scenD "Pump-1" "Bearing"
      [ "Vibration-X" ] scenR1 (by decide) (by decide) (by decide)
      (by decide)).2).mpr ⟨rfl, rfl, rfl⟩⟩

/-- C8 counterexample: in `tagFiltered` the two readings agree on the spec's
projected tuple (point, standard, four band descriptors, unit) but differ in
equipment tag; the code's alarm table keeps both rows, so its output is not
deduplicated by equality of that tuple. -/
theorem alarm_table_not_collapsed_by_spec_tuple_cex :
    (alarm_df tagFiltered).length = 2 ∧
    (alarm_df tagFiltered).map specTuple =
      [specTuple (alarmCols tagR1), specTuple (alarmCols tagR1)] ∧
    decide ((alarm_df tagFiltered).map specTuple).Nodup = false :=
  ⟨by decide, by decide, by decide⟩

/-- C8 (amended): the alarm table holds exactly the distinct `alarm_cols`
projections - point, equipment tag, standard, four band descriptors, unit -
of the rows of the final filtered subset: duplicates are collapsed by
equality of the full projected row, the equipment tag included, and the
output is the duplicate-free subsequence of first occurrences in subset
order. -/
theorem alarm_table_rows (rows : List Reading) :
    (alarm_df rows).Nodup ∧
    List.Sublist (alarm_df rows) (rows.map alarmCols) ∧
    ∀ a : AlarmRow, a ∈ alarm_df rows ↔ ∃ r ∈ rows, alarmCols r = a := by
  refine ⟨nodup_dedupFirst _, sublist_dedupFirst _, ?_⟩
  intro a
  rw [alarm_df, mem_dedupFirst, List.mem_map]

/-- C10: the alarm table's deduplication key includes the equipment tag:
two rows of the subset that agree on the spec's projected tuple but carry
different tags each contribute their own row to the table. -/
theorem alarm_table_splits_on_tag (rows : List Reading) (r1 r2 : Reading)
    (h1 : r1 ∈ rows) (h2 : r2 ∈ rows)
    (_hsame : specTuple (alarmCols r1) = specTuple (alarmCols r2))
    (hdiff : r1.equipment_tag_id ≠ r2.equipment_tag_id) :
    alarmCols r1 ∈ alarm_df rows ∧ alarmCols r2 ∈ alarm_df rows ∧
      alarmCols r1 ≠ alarmCols r2 := by
  refine ⟨?_, ?_, ?_⟩
  · rw [alarm_df, mem_dedupFirst]
    exact List.mem_map_of_mem alarmCols h1
  · rw [alarm_df, mem_dedupFirst]
    exact List.mem_map_of_mem alarmCols h2
  · intro hEq
    exact hdiff (congrArg AlarmRow.equipment_tag_id hEq)

/-- Witness for C10: the two tag-distinguished readings of `tagFiltered`
satisfy the hypotheses and yield distinct alarm-table rows. -/
theorem alarm_table_splits_on_tag_witness :
    tagR1 ∈ tagFiltered ∧ tagR2 ∈ tagFiltered ∧
    specTuple (alarmCols tagR1) = specTuple (alarmCols tagR2) ∧
    decide (tagR1.equipment_tag_id = tagR2.equipment_tag_id) = false ∧
    decide (alarmCols tagR1 = alarmCols tagR2) = false :=
  ⟨by decide, by decide, by decide, by decide,
    decide_eq_false ((alarm_table_splits_on_tag tagFiltered tagR1 tagR2
      (by decide) (by decide) (by decide) (by decide)).2.2)⟩

end TechnicalComo
